import Mathlib

/-!
Shallow embedding of the weather dashboard's core modules, translated from
the TypeScript source: the canonical data model (`src/types/weather.ts`),
the storage adapter (`getStorageItem`/`setStorageItem`), the observable
application state (`src/state/AppState.ts`), the weather client
(`src/services/weatherService.ts`), the view components (`CurrentWeather`,
`LocationSearch`, `WeatherForecast`) and the controller
(`src/App.ts::loadWeatherForLocation`/`handleError`).

Modelling conventions: TypeScript numbers become `Rat`; `T | null` and
optional chaining become `Option`; thrown JS errors become explicit
outcome values (`Except`/sum types); the browser's localStorage becomes a
record with one slot per key, where a slot is `absent`, `malformed`
(content that `JSON.parse` rejects, or a store that raises — both are
caught by the adapter) or a parsed value.
-/

namespace WeatherApp

/-- Temperature unit preference, the source's `'C' | 'F'` union. -/
inductive TempUnit where
  | C
  | F
deriving DecidableEq

/-- Serialization of `TempUnit`, exactly as the source persists it. -/
def TempUnit.toStr : TempUnit → String
  | .C => "C"
  | .F => "F"

/-- Interface `LocationSuggestion` from `src/types/weather.ts`. -/
structure LocationSuggestion where
  name : String
  country : String
  region : String
  lat : Rat
  lon : Rat
deriving DecidableEq

/-- Interface `DayForecast` from `src/types/weather.ts`. -/
structure DayForecast where
  date : String
  maxTemp : Rat
  minTemp : Rat
  condition : String
  description : String
  icon : String
  humidity : Rat
  windSpeed : Rat
deriving DecidableEq

/-- The `location` field of `WeatherData`. -/
structure WeatherDataLocation where
  name : String
  country : String
  lat : Rat
  lon : Rat
deriving DecidableEq

/-- The `current` field of `WeatherData`. -/
structure CurrentConditions where
  temperature : Rat
  condition : String
  description : String
  humidity : Rat
  windSpeed : Rat
  pressure : Rat
  visibility : Rat
  uvIndex : Rat
  icon : String
deriving DecidableEq

/-- Interface `WeatherData`, the canonical model from `src/types/weather.ts`. -/
structure WeatherData where
  location : WeatherDataLocation
  current : CurrentConditions
  forecast : List DayForecast
deriving DecidableEq

/-- A provider `condition` object (`text` + `icon`). -/
structure ApiCondition where
  text : String
  icon : String
deriving DecidableEq

/-- The provider's `current` block (`WeatherApiResponse.current`). -/
structure ApiCurrent where
  temp_c : Rat
  condition : ApiCondition
  humidity : Rat
  wind_kph : Rat
  pressure_mb : Rat
  vis_km : Rat
  uv : Rat
deriving DecidableEq

/-- The provider's per-day `day` block. -/
structure ApiDay where
  maxtemp_c : Rat
  mintemp_c : Rat
  condition : ApiCondition
  avghumidity : Rat
  maxwind_kph : Rat
deriving DecidableEq

/-- One entry of the provider's `forecast.forecastday` array. -/
structure ApiForecastDay where
  date : String
  day : ApiDay
deriving DecidableEq

/-- The provider's `location` block. -/
structure ApiLocation where
  name : String
  region : String
  country : String
  lat : Rat
  lon : Rat
deriving DecidableEq

/-- Interface `WeatherApiResponse` from `src/types/weather.ts`. The transformation
accesses the forecast block as `data.forecast?.forecastday ?? []`, so the
block is modelled as optional: `none` is a payload with no forecast. -/
structure WeatherApiResponse where
  location : ApiLocation
  current : ApiCurrent
  forecast : Option (List ApiForecastDay)
deriving DecidableEq

/-- The per-day mapping inside `transformWeatherResponse`
(`weatherService.ts`): one `DayForecast` built from one provider day. -/
def transformDay (day : ApiForecastDay) : DayForecast :=
  { date := day.date
    maxTemp := day.day.maxtemp_c
    minTemp := day.day.mintemp_c
    condition := day.day.condition.text
    description := day.day.condition.text
    icon := day.day.condition.icon
    humidity := day.day.avghumidity
    windSpeed := day.day.maxwind_kph }

/-- Expression `data.forecast?.forecastday ?? []` from the transformation. -/
def forecastDays (data : WeatherApiResponse) : List ApiForecastDay :=
  data.forecast.getD []

/-- Method `WeatherService.transformWeatherResponse` (`weatherService.ts`). -/
def transformWeatherResponse (data : WeatherApiResponse) : WeatherData :=
  { location :=
      { name := data.location.name
        country := data.location.country
        lat := data.location.lat
        lon := data.location.lon }
    current :=
      { temperature := data.current.temp_c
        condition := data.current.condition.text
        description := data.current.condition.text
        humidity := data.current.humidity
        windSpeed := data.current.wind_kph
        pressure := data.current.pressure_mb
        visibility := data.current.vis_km
        uvIndex := data.current.uv
        icon := data.current.condition.icon }
    forecast := (forecastDays data).map transformDay }

/-- One persisted slot of the browser's key-value store, as seen through
the storage adapter: `absent` (no entry), `malformed` (raw content that
`JSON.parse` rejects, or a store access that raises — the adapter catches
both), or a successfully parsed value. -/
inductive StoredCell (α : Type) where
  | absent : StoredCell α
  | malformed : StoredCell α
  | val : α → StoredCell α
deriving DecidableEq

/-- Function `getStorageItem` (`src/types/weather.ts`): returns `null` when the
entry is absent, and its try/catch resolves unparseable content or a
raising store to `null` as well. -/
def getStorageItem {α : Type} : StoredCell α → Option α
  | .absent => none
  | .malformed => none
  | .val a => some a

/-- Function `setStorageItem`: writes the JSON serialization of the value. -/
def setStorageItem {α : Type} (value : α) : StoredCell α :=
  .val value

/-- The two namespaced entries `AppState` persists: the `lastLocation`
key (a JSON `LocationSuggestion`) and the `temperatureUnit` key (a JSON
string, not necessarily `"C"`/`"F"` if written by something else). -/
structure Storage where
  lastLocation : StoredCell LocationSuggestion
  temperatureUnit : StoredCell String
deriving DecidableEq

/-- The fields of `AppState` (`src/state/AppState.ts`), with their source
initializers as the default values. -/
structure AppState where
  currentLocation : Option LocationSuggestion := none
  weatherData : Option WeatherData := none
  isLoading : Bool := false
  error : Option String := none
  temperatureUnit : TempUnit := .C
deriving DecidableEq

/-- The state a fresh `new AppState()` starts in. -/
def AppState.initial : AppState := {}

/-- Method `AppState.setLocation`. -/
def AppState.setLocation (s : AppState) (location : LocationSuggestion) : AppState :=
  { s with currentLocation := some location, error := none }

/-- Method `AppState.setWeatherData`. -/
def AppState.setWeatherData (s : AppState) (data : WeatherData) : AppState :=
  { s with weatherData := some data, error := none }

/-- Method `AppState.setLoading`: sets the flag and clears `error` when the flag
is turned on. -/
def AppState.setLoading (s : AppState) (loading : Bool) : AppState :=
  { s with isLoading := loading, error := if loading then none else s.error }

/-- Method `AppState.setError`: sets the message (or clears it with `none`) and
always turns `isLoading` off. -/
def AppState.setError (s : AppState) (error : Option String) : AppState :=
  { s with error := error, isLoading := false }

/-- Method `AppState.setTemperatureUnit`. -/
def AppState.setTemperatureUnit (s : AppState) (unitPref : TempUnit) : AppState :=
  { s with temperatureUnit := unitPref }

/-- Method `AppState.saveToStorage`: persists the current location when one is
selected, and always persists the unit preference. -/
def AppState.saveToStorage (s : AppState) (store : Storage) : Storage :=
  let store1 :=
    match s.currentLocation with
    | some loc => { store with lastLocation := setStorageItem loc }
    | none => store
  { store1 with temperatureUnit := setStorageItem s.temperatureUnit.toStr }

/-- Method `AppState.loadFromStorage`: restores the saved location when it parses
and carries a truthy (non-empty) `name` and `country`, and the saved unit
when it is exactly `"C"` or `"F"`; anything else leaves the prior field
value in place. (The trailing `notify()` does not change any field.) -/
def AppState.loadFromStorage (s : AppState) (store : Storage) : AppState :=
  let s1 :=
    match getStorageItem store.lastLocation with
    | some savedLocation =>
        if savedLocation.name ≠ "" ∧ savedLocation.country ≠ "" then
          { s with currentLocation := some savedLocation }
        else s
    | none => s
  match getStorageItem store.temperatureUnit with
  | some savedUnit =>
      if savedUnit = "C" then { s1 with temperatureUnit := .C }
      else if savedUnit = "F" then { s1 with temperatureUnit := .F }
      else s1
  | none => s1

/-- One call to one of the five mutation methods, with its argument. -/
inductive Mutation where
  | location (l : LocationSuggestion)
  | weather (d : WeatherData)
  | loading (b : Bool)
  | errMsg (e : Option String)
  | unitPref (u : TempUnit)

/-- Dispatch a `Mutation` to the corresponding `AppState` method. -/
def applyMutation (s : AppState) : Mutation → AppState
  | .location l => s.setLocation l
  | .weather d => s.setWeatherData d
  | .loading b => s.setLoading b
  | .errMsg e => s.setError e
  | .unitPref u => s.setTemperatureUnit u

/-- The states an `AppState` instance can actually be in: the constructor
state, followed by any sequence of mutation-method calls and
`loadFromStorage` restores. -/
inductive Reachable : AppState → Prop where
  | init : Reachable AppState.initial
  | step (s : AppState) (m : Mutation) : Reachable s → Reachable (applyMutation s m)
  | load (s : AppState) (store : Storage) :
      Reachable s → Reachable (s.loadFromStorage store)

/-- The spec's mutual-exclusion invariant: whenever the loading flag is
on, no error message is set. -/
def mutualExclusion (s : AppState) : Prop :=
  s.isLoading = true → s.error = none

/-- What `handleApiError` reads off `error.response`: the HTTP status and
the provider's `response.data?.error?.message` (absent when the body has
no such field). -/
structure AxiosResponseInfo where
  status : Nat
  providerMessage : Option String
deriving DecidableEq

/-- What `handleApiError` reads off an `AxiosError`: the optional
response, the optional transport code, and the error's own `message`. -/
structure AxiosErrorInfo where
  response : Option AxiosResponseInfo
  code : Option String
  message : String
deriving DecidableEq

/-- A value thrown inside one of the client operations: an `AxiosError`,
or anything else (carried as its `String(error)` rendering). -/
inductive ThrownError where
  | axios : AxiosErrorInfo → ThrownError
  | other : String → ThrownError
deriving DecidableEq

/-- Expression `error.response.data?.error?.message || error.message`: JS `||` falls
through on the empty string as well as on an absent field. -/
def responseMessage (r : AxiosResponseInfo) (e : AxiosErrorInfo) : String :=
  match r.providerMessage with
  | some m => if m = "" then e.message else m
  | none => e.message

/-- Method `WeatherService.handleApiError` (`weatherService.ts`): builds the
message of the single `Error` the client raises for a failure. -/
def handleApiError (err : ThrownError) (context : String) : String :=
  match err with
  | .axios e =>
    match e.response with
    | some r =>
      if r.status = 400 then
        context ++ ": Invalid request — " ++ responseMessage r e
      else if r.status = 401 ∨ r.status = 403 then
        context ++ ": Authentication failed — check your API key"
      else if r.status = 404 then
        context ++ ": Location not found"
      else
        context ++ ": API error (" ++ toString r.status ++ ") — " ++ responseMessage r e
    | none =>
      if e.code = some "ECONNABORTED" then
        context ++ ": Request timed out"
      else
        context ++ ": Network error — " ++ e.message
  | .other s => context ++ ": Unexpected error — " ++ s

/-- The context string `getCurrentWeather` passes to `handleApiError`. -/
def currentWeatherContext (city : String) : String :=
  "Failed to fetch current weather for \"" ++ city ++ "\""

/-- The context string `getForecast` passes to `handleApiError`. -/
def forecastContext (city : String) : String :=
  "Failed to fetch forecast for \"" ++ city ++ "\""

/-- The context string `searchLocations` passes to `handleApiError`. -/
def searchContext (query : String) : String :=
  "Failed to search locations for \"" ++ query ++ "\""

/-- Method `WeatherService.getCurrentWeather`, with the one HTTP round trip made
explicit as its outcome: on a payload the response is transformed, on a
throw the classified error is raised to the caller. -/
def getCurrentWeather (city : String)
    (transport : Except ThrownError WeatherApiResponse) : Except String WeatherData :=
  match transport with
  | .ok data => .ok (transformWeatherResponse data)
  | .error e => .error (handleApiError e (currentWeatherContext city))

/-- Method `WeatherService.getForecast` (the `days` parameter only feeds the
request, not the error path or the transformation). -/
def getForecast (city : String) (days : Nat)
    (transport : Except ThrownError WeatherApiResponse) : Except String WeatherData :=
  match days, transport with
  | _, .ok data => .ok (transformWeatherResponse data)
  | _, .error e => .error (handleApiError e (forecastContext city))

/-- One raw item of the provider's `search.json` array. -/
structure ApiSearchItem where
  name : String
  region : String
  country : String
  lat : Rat
  lon : Rat
deriving DecidableEq

/-- Method `WeatherService.searchLocations`: maps each raw item to a
`LocationSuggestion`, or raises the classified error. -/
def searchLocations (query : String)
    (transport : Except ThrownError (List ApiSearchItem)) :
    Except String (List LocationSuggestion) :=
  match transport with
  | .ok items => .ok (items.map (fun item =>
      { name := item.name
        country := item.country
        region := item.region
        lat := item.lat
        lon := item.lon }))
  | .error e => .error (handleApiError e (searchContext query))

/-- The spec's error taxonomy (§7). -/
inductive ErrorClass where
  | invalidRequest
  | authFailure
  | notFound
  | apiFailure (status : Nat)
  | timedOut
  | networkFailure
  | unexpected
deriving DecidableEq

/-- Modelled from the spec: §7's classification of a failure from the
transport/response — 400 invalid-request, 401/403 authentication-failure,
404 not-found, any other HTTP status a generic API error carrying that
status, a transport timeout a timeout error, other transport failures a
generic network error, anything else the unclassified fallback. -/
def classifyFailure : ThrownError → ErrorClass
  | .axios e =>
    match e.response with
    | some r =>
      if r.status = 400 then .invalidRequest
      else if r.status = 401 ∨ r.status = 403 then .authFailure
      else if r.status = 404 then .notFound
      else .apiFailure r.status
    | none =>
      if e.code = some "ECONNABORTED" then .timedOut
      else .networkFailure
  | .other _ => .unexpected

/-- The fixed label each error class contributes to the raised message. -/
def classLabel : ErrorClass → String
  | .invalidRequest => "Invalid request"
  | .authFailure => "Authentication failed"
  | .notFound => "Location not found"
  | .apiFailure status => "API error (" ++ toString status ++ ")"
  | .timedOut => "Request timed out"
  | .networkFailure => "Network error"
  | .unexpected => "Unexpected error"

/-- The per-failure detail text following the class label in the raised
message (empty for the classes whose message is the label alone). -/
def classDetail : ThrownError → String
  | .axios e =>
    match e.response with
    | some r =>
      if r.status = 400 then " — " ++ responseMessage r e
      else if r.status = 401 ∨ r.status = 403 then " — check your API key"
      else if r.status = 404 then ""
      else " — " ++ responseMessage r e
    | none =>
      if e.code = some "ECONNABORTED" then ""
      else " — " ++ e.message
  | .other s => " — " ++ s

/-- JS `Math.round`: the nearest integer, ties toward positive infinity,
i.e. the floor of `x + 1/2`. -/
def jsRound (x : Rat) : Int :=
  (x + 1/2).floor

/-- The `CurrentWeather` component's fields (`CurrentWeather.ts`): its own
display unit and the cached snapshot it re-renders from. -/
structure CurrentWeather where
  unit : TempUnit := .C
  currentData : Option WeatherData := none
deriving DecidableEq

/-- Method `CurrentWeather.formatTemp`: the number the temperature span displays
for a canonical Celsius value under the component's current unit. -/
def CurrentWeather.formatTemp (c : CurrentWeather) (celsius : Rat) : Int :=
  if c.unit = .F then jsRound (celsius * 9 / 5 + 32)
  else jsRound celsius

/-- Method `CurrentWeather.toggleTemperatureUnit`: flips the unit and re-renders
the same cached snapshot (the snapshot itself is not touched). -/
def CurrentWeather.toggleTemperatureUnit (c : CurrentWeather) : CurrentWeather :=
  { c with unit := if c.unit = .C then .F else .C }

/-- The number shown in the component's temperature span, when a snapshot
is rendered. -/
def CurrentWeather.displayedTemp (c : CurrentWeather) : Option Int :=
  c.currentData.map (fun d => c.formatTemp d.current.temperature)

/-- What the `LocationSearch` dropdown is showing. -/
inductive DropdownView where
  | hidden
  | searching
  | emptyResult
  | errorMsg (message : String)
  | suggestionList (items : List LocationSuggestion)
deriving DecidableEq

/-- The observable `LocationSearch` component state (`LocationSearch.ts`):
the text input, its disabled flag, the loading flag, the dropdown, and the
ordered `locationSelected` events dispatched so far. -/
structure SearchComponent where
  inputValue : String := ""
  inputDisabled : Bool := false
  isLoading : Bool := false
  dropdown : DropdownView := .hidden
  emitted : List LocationSuggestion := []
deriving DecidableEq

/-- How one `handleGeolocation` invocation resolves: the capability is
missing, `getCurrentPosition` rejects (denied or timed out), the
coordinate search itself throws, or the search resolves with a result
list. -/
inductive GeoOutcome where
  | unsupported
  | geoError
  | searchError (e : ThrownError)
  | results (found : List LocationSuggestion)
deriving DecidableEq

/-- The mutations `handleGeolocation` performs before awaiting: loading
on, the input showing the progress text and disabled. -/
def geoBegin (c : SearchComponent) : SearchComponent :=
  { c with isLoading := true, inputValue := "Detecting location...", inputDisabled := true }

/-- The catch branch of `handleGeolocation`: re-enable and clear the
input, show the inline message, and (finally) drop the loading flag. -/
def geoCatch (c : SearchComponent) : SearchComponent :=
  { c with
      inputDisabled := false
      inputValue := ""
      dropdown := .errorMsg "Unable to get your location. Please check permissions."
      isLoading := false }

/-- Method `LocationSearch.handleGeolocation` over one resolved outcome. The
unsupported branch returns before touching the input or the flags; the
empty-result branch re-enables the input but leaves its progress text in
place; only the catch branch clears the input. -/
def handleGeolocation (c : SearchComponent) : GeoOutcome → SearchComponent
  | .unsupported =>
      { c with dropdown := .errorMsg "Geolocation is not supported by your browser." }
  | .geoError => geoCatch (geoBegin c)
  | .searchError _ => geoCatch (geoBegin c)
  | .results [] =>
      let c1 := geoBegin c
      { c1 with
          inputDisabled := false
          dropdown := .errorMsg "Could not determine your location."
          isLoading := false }
  | .results (first :: _) =>
      let c1 := geoBegin c
      { c1 with
          inputDisabled := false
          inputValue := first.name ++ ", " ++ first.country
          emitted := c1.emitted ++ [first]
          isLoading := false }

/-- The outcomes of `handleGeolocation` the spec calls failures. -/
def GeoOutcome.isFailure : GeoOutcome → Prop
  | .unsupported => True
  | .geoError => True
  | .searchError _ => True
  | .results found => found = []

/-- What the current-conditions panel's container is showing. -/
inductive CurrentPanel where
  | blank
  | content (data : WeatherData)
  | loadingView
  | errorView (message : String)
deriving DecidableEq

/-- What the forecast panel's container is showing (`WeatherForecast` has
no error render). -/
inductive ForecastPanel where
  | blank
  | content (forecast : List DayForecast) (unitPref : TempUnit)
  | loadingView
deriving DecidableEq

/-- The controller-visible application surface for `App.ts`: the state
object and the two weather panels. -/
structure AppView where
  state : AppState
  currentPanel : CurrentPanel
  forecastPanel : ForecastPanel
deriving DecidableEq

/-- Method `App.loadWeatherForLocation` (`App.ts`), with the awaited fetch made
explicit as its outcome. Before the await: `setLocation`,
`setLoading(true)` and both panels replaced by loading skeletons. On
success: state updated, both panels re-rendered with content. On failure
(`handleError`): `setError` plus `showError` on the current-conditions
panel only — the forecast panel keeps whatever it was showing at the
await, which is the loading skeleton. -/
def loadWeatherForLocation (app : AppView) (location : LocationSuggestion)
    (fetched : Except ThrownError WeatherApiResponse) : AppView :=
  let st1 := (app.state.setLocation location).setLoading true
  let app1 : AppView :=
    { state := st1, currentPanel := .loadingView, forecastPanel := .loadingView }
  match getForecast location.name 5 fetched with
  | .ok data =>
    let st2 := ((st1.setWeatherData data).setLoading false)
    { state := st2
      currentPanel := .content data
      forecastPanel := .content data.forecast st2.temperatureUnit }
  | .error msg =>
    { app1 with
        state := app1.state.setError (some msg)
        currentPanel := .errorView msg }

/-- Subscriber identities: the `Set<Subscriber>` membership is by callback
identity, modelled as an id. -/
abbrev SubId := Nat

/-- Effect of `AppState.subscribe` on the subscriber set (`Set.add`: no
change when already present, else appended in insertion order). -/
def subscribeAdd (subs : List SubId) (id : SubId) : List SubId :=
  if id ∈ subs then subs else subs ++ [id]

/-- The unsubscribe token returned by `subscribe`: `Set.delete` of that
callback, a no-op when it is already gone. -/
def unsubscribe (subs : List SubId) (id : SubId) : List SubId :=
  subs.filter (fun x => x ≠ id)

/-- Iteration of `AppState.notify` over the live `Set`, where a callback
may itself unsubscribe entries (the re-entrancy the spec allows for):
`pending` is the iteration order, an entry is invoked only if it is still
a member when its turn comes, and each invocation applies that callback's
effect `act` to the subscriber set. Returns the final subscriber set and
the ids invoked, in order. -/
def notifyRun (act : SubId → List SubId → List SubId) :
    List SubId → List SubId → List SubId × List SubId
  | subs, [] => (subs, [])
  | subs, id :: rest =>
    if id ∈ subs then
      let r := notifyRun act (act id subs) rest
      (r.1, id :: r.2)
    else
      notifyRun act subs rest

/-- One full `notify()` pass: iterate the current subscriber set. -/
def notifySubs (act : SubId → List SubId → List SubId)
    (subs : List SubId) : List SubId × List SubId :=
  notifyRun act subs subs

/-- The concrete location of the spec's §8 scenario. -/
def parisLoc : LocationSuggestion :=
  { name := "Paris", country := "France", region := "Ile-de-France"
    lat := 48.8566, lon := 2.3522 }

/-- A concrete forecast day, for exercising the panels. -/
def sampleDay : DayForecast :=
  { date := "2026-10-10", maxTemp := 18, minTemp := 9, condition := "Sunny"
    description := "Sunny", icon := "cdn/sunny.png", humidity := 40, windSpeed := 10 }

/-- An application surface that is already showing forecast content from a
previous location, about to have a location change initiated. -/
def appBefore : AppView :=
  { state := AppState.initial
    currentPanel := .blank
    forecastPanel := .content [sampleDay] .C }

/-- A concrete transport timeout (axios aborts with `ECONNABORTED` and no
response). -/
def timeoutFailure : ThrownError :=
  .axios { response := none, code := some "ECONNABORTED", message := "timeout of 10000ms exceeded" }

/-- A search component in which the user has typed a query. -/
def searchBefore : SearchComponent :=
  { inputValue := "Lon" }

/-- A concrete re-entrant callback effect for the subscriber model: every
invoked callback calls the unsubscribe token of callback 2. -/
def actW : SubId → List SubId → List SubId :=
  fun _ t => unsubscribe t 2

/-- Frame lemma for `loadFromStorage`: it can only touch
`currentLocation` and `temperatureUnit`; the loading flag, error message
and weather data are left as they were. -/
theorem loadFromStorage_frame (s : AppState) (store : Storage) :
    (s.loadFromStorage store).isLoading = s.isLoading
      ∧ (s.loadFromStorage store).error = s.error
      ∧ (s.loadFromStorage store).weatherData = s.weatherData := by
  unfold AppState.loadFromStorage
  cases getStorageItem store.lastLocation <;>
    cases getStorageItem store.temperatureUnit <;>
    refine ⟨?_, ?_, ?_⟩ <;> (repeat' split) <;> rfl

/-- Every single mutation method yields a state satisfying the
loading/error mutual-exclusion invariant, provided the state it starts
from satisfies it. -/
theorem mutualExclusion_step (s : AppState) (m : Mutation)
    (h : mutualExclusion s) : mutualExclusion (applyMutation s m) := by
  cases m <;>
    simp_all [applyMutation, mutualExclusion, AppState.setLocation,
      AppState.setWeatherData, AppState.setLoading, AppState.setError,
      AppState.setTemperatureUnit]

/-- Every reachable state satisfies the mutual-exclusion invariant. -/
theorem mutualExclusion_reachable (s : AppState) (h : Reachable s) :
    mutualExclusion s := by
  induction h with
  | init => intro h; cases h
  | step t m _ ih => exact mutualExclusion_step t m ih
  | load t store _ ih =>
      intro hl
      have frame := loadFromStorage_frame t store
      rw [frame.1] at hl
      rw [frame.2.1]
      exact ih hl

/-- Claim C2: for every reachable `ApplicationState` and every mutation
method, after the call the error field and the loading flag are never
simultaneously set; in particular `setLoading true` clears any existing
error and `setError` with a message clears loading. -/
theorem mutation_preserves_mutualExclusion (s : AppState) (h : Reachable s)
    (m : Mutation) (msg : String) :
    mutualExclusion (applyMutation s m)
      ∧ (s.setLoading true).error = none
      ∧ (s.setError (some msg)).isLoading = false := by
  refine ⟨mutualExclusion_step s m (mutualExclusion_reachable s h), ?_, rfl⟩
  simp [AppState.setLoading]

/-- Witness for C2 at the freshly constructed state and a concrete
mutation and message. -/
theorem mutation_preserves_mutualExclusion_witness :
    mutualExclusion (applyMutation AppState.initial (.unitPref .F))
      ∧ (AppState.initial.setLoading true).error = none
      ∧ (AppState.initial.setError (some "boom")).isLoading = false :=
  mutation_preserves_mutualExclusion AppState.initial Reachable.init (.unitPref .F) "boom"

/-- Claim C10: `setLocation` and `setWeatherData` each also clear the
error field to `none`, while leaving the loading flag, the unit
preference and the other of location/weather-data unchanged (and setting
their own field). -/
theorem setLocation_setWeatherData_frame (s : AppState)
    (l : LocationSuggestion) (d : WeatherData) :
    ((s.setLocation l).error = none
      ∧ (s.setLocation l).currentLocation = some l
      ∧ (s.setLocation l).isLoading = s.isLoading
      ∧ (s.setLocation l).temperatureUnit = s.temperatureUnit
      ∧ (s.setLocation l).weatherData = s.weatherData)
      ∧ ((s.setWeatherData d).error = none
      ∧ (s.setWeatherData d).weatherData = some d
      ∧ (s.setWeatherData d).isLoading = s.isLoading
      ∧ (s.setWeatherData d).temperatureUnit = s.temperatureUnit
      ∧ (s.setWeatherData d).currentLocation = s.currentLocation) :=
  ⟨⟨rfl, rfl, rfl, rfl, rfl⟩, ⟨rfl, rfl, rfl, rfl, rfl⟩⟩

/-- Claim C3: the transformation into the canonical model copies every
numeric field unchanged (current temperature, humidity, wind speed,
pressure, visibility, UV index, and each day's max/min temperature,
humidity and wind speed) and produces exactly one `DayForecast` per
provider-returned day, in the provider's order (same length, and the
`i`-th entry is built from the `i`-th provider day, witnessed per field
and by the dates). -/
theorem transform_preserves_fields (data : WeatherApiResponse) (i : Nat) :
    (transformWeatherResponse data).current.temperature = data.current.temp_c
      ∧ (transformWeatherResponse data).current.humidity = data.current.humidity
      ∧ (transformWeatherResponse data).current.windSpeed = data.current.wind_kph
      ∧ (transformWeatherResponse data).current.pressure = data.current.pressure_mb
      ∧ (transformWeatherResponse data).current.visibility = data.current.vis_km
      ∧ (transformWeatherResponse data).current.uvIndex = data.current.uv
      ∧ (transformWeatherResponse data).forecast.length = (forecastDays data).length
      ∧ ((transformWeatherResponse data).forecast[i]?).map DayForecast.maxTemp
          = ((forecastDays data)[i]?).map (fun d => d.day.maxtemp_c)
      ∧ ((transformWeatherResponse data).forecast[i]?).map DayForecast.minTemp
          = ((forecastDays data)[i]?).map (fun d => d.day.mintemp_c)
      ∧ ((transformWeatherResponse data).forecast[i]?).map DayForecast.humidity
          = ((forecastDays data)[i]?).map (fun d => d.day.avghumidity)
      ∧ ((transformWeatherResponse data).forecast[i]?).map DayForecast.windSpeed
          = ((forecastDays data)[i]?).map (fun d => d.day.maxwind_kph)
      ∧ ((transformWeatherResponse data).forecast[i]?).map DayForecast.date
          = ((forecastDays data)[i]?).map ApiForecastDay.date := by
  refine ⟨rfl, rfl, rfl, rfl, rfl, rfl, ?_, ?_, ?_, ?_, ?_, ?_⟩ <;>
    simp [transformWeatherResponse, transformDay, Option.map_map, Function.comp_def]

/-- Agreement of `jsRound` with the mathematical floor of `x + 1/2`. -/
theorem jsRound_intFloor (x : Rat) : jsRound x = ⌊x + 1/2⌋ := by
  rw [jsRound, Rat.floor_def', Rat.floor_def]

/-- Claim C5: the Fahrenheit display value is `round (c * 9/5 + 32)`
(68 for 20 °C), the Celsius display value is `round c` (20 for 20 °C),
toggling never modifies the cached canonical snapshot, and a C→F→C
double toggle restores both the unit and the displayed value. -/
theorem temperature_display_round_trip (celsius : Rat) (c : CurrentWeather) :
    CurrentWeather.formatTemp { c with unit := .F } celsius = jsRound (celsius * 9 / 5 + 32)
      ∧ CurrentWeather.formatTemp { c with unit := .C } celsius = jsRound celsius
      ∧ c.toggleTemperatureUnit.currentData = c.currentData
      ∧ c.toggleTemperatureUnit.toggleTemperatureUnit.unit = c.unit
      ∧ c.toggleTemperatureUnit.toggleTemperatureUnit.displayedTemp = c.displayedTemp
      ∧ CurrentWeather.formatTemp { unit := .F, currentData := none } 20 = 68
      ∧ CurrentWeather.formatTemp { unit := .C, currentData := none } 20 = 20 := by
  refine ⟨rfl, rfl, rfl, ?_, ?_, ?_, ?_⟩
  · cases hu : c.unit <;>
      simp [CurrentWeather.toggleTemperatureUnit, hu]
  · cases hu : c.unit <;>
      simp [CurrentWeather.toggleTemperatureUnit, CurrentWeather.displayedTemp,
        CurrentWeather.formatTemp, hu]
  · show jsRound ((20 : Rat) * 9 / 5 + 32) = 68
    rw [jsRound_intFloor, Int.floor_eq_iff]; norm_num
  · show jsRound (20 : Rat) = 20
    rw [jsRound_intFloor, Int.floor_eq_iff]; norm_num

/-- Claim C6: with a well-formed stored location (non-empty name and
country) and a stored unit that is exactly `"C"` or `"F"`,
`loadFromStorage` followed immediately by `saveToStorage` writes back
exactly the content that was stored: the persisted content is unchanged. -/
theorem storage_round_trip (s : AppState) (store : Storage)
    (l : LocationSuggestion) (u : String)
    (hl : store.lastLocation = .val l) (hn : l.name ≠ "") (hc : l.country ≠ "")
    (hu : store.temperatureUnit = .val u) (huv : u = "C" ∨ u = "F") :
    (s.loadFromStorage store).saveToStorage store = store := by
  obtain ⟨sl, su⟩ := store
  simp only [Storage.mk.injEq] at hl hu
  subst hl; subst hu
  unfold AppState.loadFromStorage AppState.saveToStorage
  rcases huv with h | h <;> subst h <;>
    simp [getStorageItem, setStorageItem, hn, hc, TempUnit.toStr]

/-- Witness for C6 at a concrete well-formed store. -/
theorem storage_round_trip_witness :
    (AppState.initial.loadFromStorage
        ⟨.val { name := "Oslo", country := "Norway", region := "", lat := 59, lon := 10 },
         .val "F"⟩).saveToStorage
      ⟨.val { name := "Oslo", country := "Norway", region := "", lat := 59, lon := 10 },
       .val "F"⟩ =
    ⟨.val { name := "Oslo", country := "Norway", region := "", lat := 59, lon := 10 },
     .val "F"⟩ :=
  storage_round_trip AppState.initial _
    { name := "Oslo", country := "Norway", region := "", lat := 59, lon := 10 } "F"
    rfl (by decide) (by decide) rfl (Or.inr rfl)

/-- Helper for C7: when the stored location is absent, malformed, or
parses to a record the guard rejects, the prior location is retained. -/
theorem loadFromStorage_location_of_reject (s : AppState) (store : Storage)
    (h : ∀ l, getStorageItem store.lastLocation = some l → l.name = "" ∨ l.country = "") :
    (s.loadFromStorage store).currentLocation = s.currentLocation := by
  cases hgl : getStorageItem store.lastLocation with
  | none =>
    unfold AppState.loadFromStorage
    simp only [hgl]
    (repeat' split) <;> rfl
  | some l =>
    have hrej : ¬(l.name ≠ "" ∧ l.country ≠ "") := by
      rcases h l hgl with h1 | h1 <;> simp [h1]
    unfold AppState.loadFromStorage
    simp only [hgl, if_neg hrej]
    (repeat' split) <;> rfl

/-- Helper for C7: when the stored unit is absent, malformed, or any
string other than exactly `"C"`/`"F"`, the prior preference is retained. -/
theorem loadFromStorage_unit_of_reject (s : AppState) (store : Storage)
    (h : ∀ u, getStorageItem store.temperatureUnit = some u → u ≠ "C" ∧ u ≠ "F") :
    (s.loadFromStorage store).temperatureUnit = s.temperatureUnit := by
  cases hgu : getStorageItem store.temperatureUnit with
  | none =>
    unfold AppState.loadFromStorage
    simp only [hgu]
    (repeat' split) <;> rfl
  | some u =>
    unfold AppState.loadFromStorage
    simp only [hgu, if_neg (h u hgu).1, if_neg (h u hgu).2]
    (repeat' split) <;> rfl

/-- Claim C7: the storage adapter resolves malformed content and store
failures to absent (`none`) rather than raising; a malformed or absent
stored location (including one whose parsed `name` or `country` is the
empty string) never overwrites the prior location; a stored unit other
than exactly `"C"`/`"F"` never overwrites the prior preference; and
`loadFromStorage` touches no other state field. (Non-raising itself is
inherent to the embedding: both functions are total.) -/
theorem loadFromStorage_rejects_malformed (s : AppState) (store : Storage) :
    (getStorageItem (StoredCell.malformed : StoredCell LocationSuggestion) = none
      ∧ getStorageItem (StoredCell.absent : StoredCell LocationSuggestion) = none
      ∧ getStorageItem (StoredCell.malformed : StoredCell String) = none)
    ∧ ((store.lastLocation = .absent ∨ store.lastLocation = .malformed
        ∨ (∃ l, store.lastLocation = .val l ∧ (l.name = "" ∨ l.country = ""))) →
        (s.loadFromStorage store).currentLocation = s.currentLocation)
    ∧ ((store.temperatureUnit = .absent ∨ store.temperatureUnit = .malformed
        ∨ (∃ u, store.temperatureUnit = .val u ∧ u ≠ "C" ∧ u ≠ "F")) →
        (s.loadFromStorage store).temperatureUnit = s.temperatureUnit)
    ∧ ((s.loadFromStorage store).isLoading = s.isLoading
        ∧ (s.loadFromStorage store).error = s.error
        ∧ (s.loadFromStorage store).weatherData = s.weatherData) := by
  refine ⟨⟨rfl, rfl, rfl⟩, ?_, ?_, loadFromStorage_frame s store⟩
  · intro h
    refine loadFromStorage_location_of_reject s store ?_
    intro l hl
    rcases h with h | h | ⟨l', h, hbad⟩ <;> rw [h] at hl <;>
      simp [getStorageItem] at hl
    subst hl; exact hbad
  · intro h
    refine loadFromStorage_unit_of_reject s store ?_
    intro u hu
    rcases h with h | h | ⟨u', h, hbad⟩ <;> rw [h] at hu <;>
      simp [getStorageItem] at hu
    subst hu; exact hbad

/-- Witness for C7 at the spec's own example: stored location
`{name: "", country: "X"}` and a stored unit `"X"` are both rejected. -/
theorem loadFromStorage_rejects_malformed_witness :
    (AppState.initial.loadFromStorage
        ⟨.val { name := "", country := "X", region := "", lat := 0, lon := 0 },
         .val "X"⟩).currentLocation = AppState.initial.currentLocation
    ∧ (AppState.initial.loadFromStorage
        ⟨.val { name := "", country := "X", region := "", lat := 0, lon := 0 },
         .val "X"⟩).temperatureUnit = AppState.initial.temperatureUnit := by
  have h := loadFromStorage_rejects_malformed AppState.initial
    ⟨.val { name := "", country := "X", region := "", lat := 0, lon := 0 }, .val "X"⟩
  exact ⟨h.2.1 (Or.inr (Or.inr ⟨_, rfl, Or.inl rfl⟩)),
         h.2.2.1 (Or.inr (Or.inr ⟨_, rfl, by decide, by decide⟩))⟩

/-- Counterexample to claim C1 as stated: with the forecast panel showing
content from a previous location, a failing fetch for Paris leaves the
forecast panel showing something other than what it showed before the
location change was initiated (it shows the loading skeleton rendered at
the start of the attempt, not the prior cards). -/
theorem failed_fetch_changes_forecast_panel :
    (loadWeatherForLocation appBefore parisLoc (.error timeoutFailure)).forecastPanel
        = .loadingView
      ∧ appBefore.forecastPanel = .content [sampleDay] .C
      ∧ (loadWeatherForLocation appBefore parisLoc (.error timeoutFailure)).forecastPanel
        ≠ appBefore.forecastPanel := by
  refine ⟨rfl, rfl, ?_⟩
  intro h
  simp [loadWeatherForLocation, getForecast, appBefore] at h

/-- Claim C1 (amended): for every location-change fetch that fails, the
controller surfaces the error only through the state's error field and
the current-conditions panel — the state keeps the new location, keeps
the prior weather data and unit, and ends with loading off — while the
forecast panel is left showing the loading skeleton rendered when the
fetch began, not the content it showed before the location change. -/
theorem failed_fetch_error_surface (app : AppView) (location : LocationSuggestion)
    (e : ThrownError) :
    (loadWeatherForLocation app location (.error e)).forecastPanel = .loadingView
      ∧ (loadWeatherForLocation app location (.error e)).currentPanel
          = .errorView (handleApiError e (forecastContext location.name))
      ∧ (loadWeatherForLocation app location (.error e)).state.error
          = some (handleApiError e (forecastContext location.name))
      ∧ (loadWeatherForLocation app location (.error e)).state.isLoading = false
      ∧ (loadWeatherForLocation app location (.error e)).state.currentLocation
          = some location
      ∧ (loadWeatherForLocation app location (.error e)).state.weatherData
          = app.state.weatherData
      ∧ (loadWeatherForLocation app location (.error e)).state.temperatureUnit
          = app.state.temperatureUnit := by
  refine ⟨rfl, rfl, rfl, rfl, rfl, rfl, rfl⟩

/-- Counterexample to claim C4 as stated: a geolocation lookup whose
coordinate search returns an empty result set leaves the search input
showing the progress text `"Detecting location..."`, not clear. -/
theorem geolocation_empty_result_input_not_clear :
    (handleGeolocation searchBefore (.results [])).inputValue = "Detecting location..."
      ∧ (handleGeolocation searchBefore (.results [])).inputValue ≠ "" := by
  exact ⟨rfl, by decide⟩

/-- Claim C4 (amended): every failure of the one-shot geolocation lookup
renders an inline dropdown message and never emits a location-selected
event (so nothing reaches global state); the input is cleared only by the
rejection/exception path (permission denied, timeout, search throw) — an
empty result set leaves the input showing `"Detecting location..."`, and
the unsupported-capability early return leaves the input text untouched. -/
theorem geolocation_failure_surface (c : SearchComponent) (g : GeoOutcome)
    (h : g.isFailure) :
    (∃ m, (handleGeolocation c g).dropdown = .errorMsg m)
      ∧ (handleGeolocation c g).emitted = c.emitted
      ∧ (g = .geoError ∨ (∃ e, g = .searchError e) →
          (handleGeolocation c g).inputValue = "")
      ∧ (g = .results [] → (handleGeolocation c g).inputValue = "Detecting location...")
      ∧ (g = .unsupported → (handleGeolocation c g).inputValue = c.inputValue) := by
  cases g with
  | unsupported =>
    refine ⟨⟨_, rfl⟩, rfl, ?_, ?_, fun _ => rfl⟩
    · rintro (hq | ⟨e, hq⟩) <;> simp at hq
    · intro hq; simp at hq
  | geoError =>
    refine ⟨⟨_, rfl⟩, rfl, fun _ => rfl, ?_, ?_⟩
    · intro hq; simp at hq
    · intro hq; simp at hq
  | searchError e =>
    refine ⟨⟨_, rfl⟩, rfl, fun _ => rfl, ?_, ?_⟩
    · intro hq; simp at hq
    · intro hq; simp at hq
  | results found =>
    have hf : found = [] := h
    subst hf
    refine ⟨⟨_, rfl⟩, rfl, ?_, fun _ => rfl, ?_⟩
    · rintro (hq | ⟨e, hq⟩) <;> simp at hq
    · intro hq; simp at hq

/-- Witness for C4 (amended) at the empty-result failure on a component
with typed input. -/
theorem geolocation_failure_surface_witness :
    (∃ m, (handleGeolocation searchBefore (.results [])).dropdown = .errorMsg m)
      ∧ (handleGeolocation searchBefore (.results [])).emitted = searchBefore.emitted
      ∧ ((.results [] : GeoOutcome) = .geoError
            ∨ (∃ e, (.results [] : GeoOutcome) = .searchError e) →
          (handleGeolocation searchBefore (.results [])).inputValue = "")
      ∧ ((.results [] : GeoOutcome) = .results [] →
          (handleGeolocation searchBefore (.results [])).inputValue
            = "Detecting location...")
      ∧ ((.results [] : GeoOutcome) = .unsupported →
          (handleGeolocation searchBefore (.results [])).inputValue
            = searchBefore.inputValue) :=
  geolocation_failure_surface searchBefore (.results []) rfl

/-- The message `handleApiError` builds always decomposes as the context,
`": "`, the label of the spec's class for that failure, and the
class-specific detail text. -/
theorem handleApiError_decompose (e : ThrownError) (context : String) :
    handleApiError e context
      = context ++ ": " ++ classLabel (classifyFailure e) ++ classDetail e := by
  cases e with
  | other s =>
    simp only [handleApiError, classifyFailure, classLabel, classDetail,
      String.append_assoc]
    rfl
  | axios a =>
    obtain ⟨resp, code, message⟩ := a
    cases resp with
    | none =>
      by_cases hc : code = some "ECONNABORTED" <;>
        simp only [handleApiError, classifyFailure, classLabel, classDetail, hc,
          if_true, if_false, ite_true, ite_false, String.append_assoc] <;>
        rfl
    | some r =>
      by_cases h400 : r.status = 400
      · simp only [handleApiError, classifyFailure, classLabel, classDetail, h400,
          if_true, if_false, ite_true, ite_false, reduceIte, String.append_assoc]
        rfl
      · by_cases hauth : r.status = 401 ∨ r.status = 403
        · simp only [handleApiError, classifyFailure, classLabel, classDetail, h400,
            hauth, if_true, if_false, ite_true, ite_false, String.append_assoc]
          rfl
        · by_cases h404 : r.status = 404
          · simp only [handleApiError, classifyFailure, classLabel, classDetail, h400,
              hauth, h404, if_true, if_false, ite_true, ite_false, reduceIte,
              String.append_assoc]
            rfl
          · simp only [handleApiError, classifyFailure, classLabel, classDetail, h400,
              hauth, h404, if_true, if_false, ite_true, ite_false, reduceIte,
              String.append_assoc]
            rfl

/-- Claim C8: every failure of any of the three client operations is
raised (never recovered) as exactly one classified error, whose class is
the spec's taxonomy applied to the transport/response — 400 invalid
request, 401/403 authentication failure, 404 not found, other statuses a
generic API error carrying the status, `ECONNABORTED` a timeout, other
transport failures a network error, non-Axios throws the unexpected
fallback — and whose message starts with the context string naming the
operation and the original query. -/
theorem client_failure_classification (e : ThrownError) (city q : String) (days : Nat) :
    getCurrentWeather city (.error e)
        = .error (currentWeatherContext city ++ ": "
            ++ classLabel (classifyFailure e) ++ classDetail e)
      ∧ getForecast city days (.error e)
        = .error (forecastContext city ++ ": "
            ++ classLabel (classifyFailure e) ++ classDetail e)
      ∧ searchLocations q (.error e)
        = .error (searchContext q ++ ": "
            ++ classLabel (classifyFailure e) ++ classDetail e)
      ∧ currentWeatherContext city
        = "Failed to fetch current weather for \"" ++ city ++ "\""
      ∧ forecastContext city = "Failed to fetch forecast for \"" ++ city ++ "\""
      ∧ searchContext q = "Failed to search locations for \"" ++ q ++ "\"" := by
  refine ⟨?_, ?_, ?_, rfl, rfl, rfl⟩ <;>
    simp [getCurrentWeather, getForecast, searchLocations, handleApiError_decompose]

/-- The ids a notification pass invokes all come from the iteration
order it started with. -/
theorem notifyRun_invoked_subset (act : SubId → List SubId → List SubId)
    (pending subs : List SubId) (x : SubId)
    (hx : x ∈ (notifyRun act subs pending).2) : x ∈ pending := by
  induction pending generalizing subs with
  | nil => simp [notifyRun] at hx
  | cons id rest ih =>
    rw [notifyRun] at hx
    split at hx
    · rcases List.mem_cons.mp hx with h | h
      · exact h ▸ List.mem_cons_self id rest
      · exact List.mem_cons_of_mem id (ih _ h)
    · exact List.mem_cons_of_mem id (ih _ hx)

/-- When callbacks only remove subscribers, a notification pass never
grows the subscriber set. -/
theorem notifyRun_subs_subset (act : SubId → List SubId → List SubId)
    (hact : ∀ j t x, x ∈ act j t → x ∈ t)
    (pending subs : List SubId) (x : SubId)
    (hx : x ∈ (notifyRun act subs pending).1) : x ∈ subs := by
  induction pending generalizing subs with
  | nil => simpa [notifyRun] using hx
  | cons id rest ih =>
    rw [notifyRun] at hx
    split at hx
    · exact hact id subs x (ih _ hx)
    · exact ih _ hx

/-- If callbacks only remove subscribers, the callback of `id` removes
`id` whenever it runs, and `id` can only still be subscribed if its turn
is still pending, then `id` is gone from the set after the pass. -/
theorem notifyRun_self_removed (act : SubId → List SubId → List SubId) (id : SubId)
    (hact : ∀ j t x, x ∈ act j t → x ∈ t)
    (hid : ∀ t, id ∉ act id t)
    (pending subs : List SubId) (hmem : id ∈ subs → id ∈ pending) :
    id ∉ (notifyRun act subs pending).1 := by
  induction pending generalizing subs with
  | nil =>
    intro hx
    rw [notifyRun] at hx
    exact (List.not_mem_nil id) (hmem hx)
  | cons j rest ih =>
    rw [notifyRun]
    split
    · next hj =>
      by_cases hji : j = id
      · subst hji
        exact ih (act j subs) (fun hin => absurd hin (hid subs))
      · refine ih (act j subs) (fun hin => ?_)
        have hsub : id ∈ subs := hact j subs id hin
        rcases List.mem_cons.mp (hmem hsub) with h | h
        · exact absurd h.symm hji
        · exact h
    · next hj =>
      refine ih subs (fun hin => ?_)
      rcases List.mem_cons.mp (hmem hin) with h | h
      · exact absurd (h ▸ hin) hj
      · exact h

/-- Claim C9: once a callback's unsubscribe token has run, the callback
receives no later notification — both when the token is called outside
any notification (first conjunct: a pass over the shrunken set never
invokes it) and when the callback's own invocation calls it (second and
third conjuncts: the pass leaves the set without it, so a subsequent pass
of any removal-only callbacks never invokes it) — and calling the token
again is a no-op. `act` gives each callback's re-entrant effect on the
subscriber set; `hact` says callbacks only unsubscribe (never re-add) and
`hid` says the callback of `id` calls its own token when invoked. -/
theorem unsubscribed_never_notified (subs : List SubId) (id : SubId)
    (act act2 : SubId → List SubId → List SubId)
    (hact : ∀ j t x, x ∈ act j t → x ∈ t)
    (hid : ∀ t, id ∉ act id t) :
    id ∉ (notifySubs act2 (unsubscribe subs id)).2
      ∧ id ∉ (notifySubs act subs).1
      ∧ id ∉ (notifySubs act2 (notifySubs act subs).1).2
      ∧ unsubscribe (unsubscribe subs id) id = unsubscribe subs id := by
  have hunsub : id ∉ unsubscribe subs id := by
    simp [unsubscribe]
  have hfinal : id ∉ (notifySubs act subs).1 :=
    notifyRun_self_removed act id hact hid subs subs (fun h => h)
  refine ⟨?_, hfinal, ?_, ?_⟩
  · intro hx
    exact hunsub (notifyRun_invoked_subset act2 (unsubscribe subs id) _ id hx)
  · intro hx
    exact hfinal (notifyRun_invoked_subset act2 (notifySubs act subs).1 _ id hx)
  · simp [unsubscribe, List.filter_filter]

/-- Witness for C9: two subscribers, every invoked callback calling the
unsubscribe token of subscriber 2. -/
theorem unsubscribed_never_notified_witness :
    2 ∉ (notifySubs actW (unsubscribe [1, 2] 2)).2
      ∧ 2 ∉ (notifySubs actW [1, 2]).1
      ∧ 2 ∉ (notifySubs actW (notifySubs actW [1, 2]).1).2
      ∧ unsubscribe (unsubscribe [1, 2] 2) 2 = unsubscribe [1, 2] 2 :=
  unsubscribed_never_notified [1, 2] 2 actW actW
    (fun j t x hx => by
      have : x ∈ t.filter (fun y => y ≠ 2) := hx
      exact (List.mem_filter.mp this).1)
    (fun t => by simp [actW, unsubscribe])

end WeatherApp
